import Mathlib

/-!
Shallow embedding of the font-kit repository's stub "web/FreeType" loader
(`src/loaders/web.rs`), the `FamilyHandle` container (`src/family_handle.rs`),
and the `Metrics` value type (`src/font.rs`), together with theorems settling
the specification claims about them.

Rust `Arc<Vec<u8>>` buffers are embedded as `List Nat` (byte lists), `u32`
indices as `Nat`, `f32` fields as `Float` (no float arithmetic is ever
performed by the embedded code: every stub ignores or passes through these
values), and fallible Rust functions returning `Result` as Lean `Except`.
-/

namespace FontKit

/-- Modelled from the spec: `src/error.rs` is not among the provided sources.
Section 7 of the spec says `FontLoadingError` "covers 'not implemented,' I/O
failure, and 'not a recognized font format'", so the kinds are distinct
constructors. The stub loader only ever produces `notImplemented`. -/
inductive FontLoadingError where
  | notImplemented
  | unknownFormat
  | ioFailure
  deriving DecidableEq, Repr

/-- Modelled from the spec: `src/error.rs` is not among the provided sources.
Section 7 says `GlyphLoadingError` "covers 'glyph id out of range' and
'requested hinting mode unsupported'". -/
inductive GlyphLoadingError where
  | noSuchGlyph
  | hintingUnsupported
  deriving DecidableEq, Repr

/-- Modelled from the spec: `src/file_type.rs` is not among the provided
sources. Section 3: `FileType` "tags a byte stream as single-font or
collection-with-N-fonts". -/
inductive FileType where
  | single
  | collection (faces : Nat)
  deriving DecidableEq, Repr

/-- Embeds pathfinder's `Vector2F` (two `f32` components), used by the loader
only through `Vector2F::default()`, the zero vector. -/
structure Vector2F where
  x : Float
  y : Float

/-- `Vector2F::default()`: the zero vector. -/
def Vector2F.default : Vector2F := ⟨0.0, 0.0⟩

/-- Embeds pathfinder's `Transform2F` (a 2x2 `f32` matrix plus a translation
vector). The stub loader ignores every transform it receives. -/
structure Transform2F where
  m11 : Float
  m12 : Float
  m21 : Float
  m22 : Float
  vector : Vector2F

/-- Embeds `Metrics` from `src/font.rs`: `units_per_em : u32` and seven `f32`
fields, all in font design units. -/
structure Metrics where
  units_per_em : Nat
  ascent : Float
  descent : Float
  line_gap : Float
  underline_position : Float
  underline_thickness : Float
  cap_height : Float
  x_height : Float

/-- Modelled from the spec: the `Default` impl for `Metrics` is not among the
provided sources (`src/font.rs` only declares the struct). Section 7 of the
spec says metadata queries degrade to "a zeroed `Metrics`", so the default is
the all-zero record. -/
def Metrics.default : Metrics := ⟨0, 0.0, 0.0, 0.0, 0.0, 0.0, 0.0, 0.0⟩

/-- Modelled from the spec: `src/hinting.rs` is not among the provided
sources. Hinting is a rendering-configuration knob: either no hinting or a
grid-fitting mode at a pixels-per-em size. The stub loader ignores it. -/
inductive HintingOptions where
  | noHinting
  | vertical (pixelsPerEm : Float)
  | verticalSubpixel (pixelsPerEm : Float)
  | full (pixelsPerEm : Float)

/-- Modelled from the spec: `src/canvas.rs` is not among the provided
sources. Section 6: a `Canvas` pixel format is "bilevel / 8-bit alpha /
32-bit RGBA". -/
inductive Format where
  | bilevel
  | alpha8
  | rgba32
  deriving DecidableEq, Repr

/-- Modelled from the spec: `src/canvas.rs` is not among the provided
sources. Section 6: a `Canvas` is "a caller-owned pixel buffer with a
declared format ... and size, mutated in place by rasterization". -/
structure Canvas where
  pixels : List Nat
  width : Nat
  height : Nat
  format : Format
  deriving DecidableEq, Repr

/-- Modelled from the spec: `src/canvas.rs` is not among the provided
sources. The rasterization-format knob; the stub loader ignores it. -/
inductive RasterizationOptions where
  | bilevel
  | grayscaleAa
  | subpixelAa
  deriving DecidableEq, Repr

/-- Embeds `type FT_Face = Option<String>` from `src/loaders/web.rs` line 95. -/
def FT_Face : Type := Option String

/-- Embeds `pub type NativeFont = FT_Face` from `src/loaders/web.rs`. -/
def NativeFont : Type := FT_Face

/-- Embeds `struct Font` from `src/loaders/web.rs`: a FreeType face handle
(here `Option String`, per the repository's own `FT_Face` alias) plus the
retained raw font bytes (`Arc<Vec<u8>>`, embedded as a byte list). -/
structure Font where
  freetype_face : Option String
  font_data : List Nat

/-- Embeds `Font::from_bytes` (`src/loaders/web.rs` lines 128-130): the stub
unconditionally returns `Err(FontLoadingError::NotImplemented)`. -/
def Font.from_bytes (font_data : List Nat) (font_index : Nat) :
    Except FontLoadingError Font :=
  Except.error FontLoadingError.notImplemented

/-- Embeds `Font::from_path` (`src/loaders/web.rs` lines 147-152): the stub
unconditionally returns `Err(FontLoadingError::NotImplemented)`. -/
def Font.from_path (path : String) (font_index : Nat) :
    Except FontLoadingError Font :=
  Except.error FontLoadingError.notImplemented

/-- Embeds `Font::from_native_font` (`src/loaders/web.rs` lines 155-160):
wraps the given native face and retains an empty data buffer
(`Arc::new(Vec::new())`). -/
def Font.from_native_font (freetype_face : Option String) : Font :=
  { freetype_face := freetype_face, font_data := [] }

/-- Embeds `Font::analyze_bytes` (`src/loaders/web.rs` lines 170-172): the
stub unconditionally returns `Err(FontLoadingError::NotImplemented)`. -/
def Font.analyze_bytes (font_data : List Nat) :
    Except FontLoadingError FileType :=
  Except.error FontLoadingError.notImplemented

/-- Embeds `Font::postscript_name` (`src/loaders/web.rs` lines 199-201):
returns `Some("not implemented".to_string())`. -/
def Font.postscript_name (f : Font) : Option String :=
  some "not implemented"

/-- Embeds `Font::full_name` (`src/loaders/web.rs` lines 204-206): returns
the placeholder string `"not implemented"`. -/
def Font.full_name (f : Font) : String :=
  "not implemented"

/-- Embeds `Font::family_name` (`src/loaders/web.rs` lines 209-211): returns
the placeholder string `"not implemented"`. -/
def Font.family_name (f : Font) : String :=
  "not implemented"

/-- Embeds `Font::is_monospace` (`src/loaders/web.rs` lines 214-216):
returns `false`. -/
def Font.is_monospace (f : Font) : Bool :=
  false

/-- Embeds `Font::glyph_count` (`src/loaders/web.rs` lines 247-249):
returns `0`. -/
def Font.glyph_count (f : Font) : Nat :=
  0

/-- Embeds `Font::advance` (`src/loaders/web.rs` lines 278-281): after a
diagnostic warning, returns `Ok(Vector2F::default())` for every glyph id. -/
def Font.advance (f : Font) (glyph_id : Nat) :
    Except GlyphLoadingError Vector2F :=
  Except.ok Vector2F.default

/-- Embeds `Font::metrics` (`src/loaders/web.rs` lines 292-295): after a
diagnostic warning, returns `Metrics::default()`. -/
def Font.metrics (f : Font) : Metrics :=
  Metrics.default

/-- Embeds `Font::copy_font_data` (`src/loaders/web.rs` lines 379-381):
returns `Some(self.font_data.clone())`, unconditionally. -/
def Font.copy_font_data (f : Font) : Option (List Nat) :=
  some f.font_data

/-- Embeds `Font::rasterize_glyph` (`src/loaders/web.rs` lines 344-357): the
stub emits a diagnostic warning and returns `Ok(())` without touching the
canvas. The Rust `&mut Canvas` parameter is embedded by explicit state
passing: the function returns the result together with the canvas after the
call. -/
def Font.rasterize_glyph (f : Font) (canvas : Canvas) (glyph_id : Nat)
    (point_size : Float) (transform : Transform2F)
    (hinting_options : HintingOptions)
    (rasterization_options : RasterizationOptions) :
    Except GlyphLoadingError Unit × Canvas :=
  (Except.ok (), canvas)

/-- Embeds `FallbackResult<Font>` as used by `Font::get_fallbacks`: a list of
fallback fonts and the valid byte length of the input text. -/
structure FallbackResult where
  fonts : List Font
  valid_len : Nat

/-- Embeds `Font::get_fallbacks` (`src/loaders/web.rs` lines 388-394): emits
a diagnostic warning and returns no fallback fonts with
`valid_len = text.len()`. Rust `&str` is embedded as its UTF-8 byte list, so
`text.len()` is the list length. -/
def Font.get_fallbacks (f : Font) (text : List Nat) (locale : List Nat) :
    FallbackResult :=
  { fonts := [], valid_len := text.length }

/-- Modelled from the spec: `src/handle.rs` is not among the provided
sources. Section 3: a `Handle` is "`{path: string, font_index: u32}` or
`{bytes: shared immutable buffer, font_index: u32}`". -/
inductive Handle where
  | path (path : String) (font_index : Nat)
  | memory (bytes : List Nat) (font_index : Nat)
  deriving DecidableEq, Repr

/-- Embeds `struct FamilyHandle` from `src/family_handle.rs`: an ordered
sequence of handles. -/
structure FamilyHandle where
  fonts : List Handle
  deriving DecidableEq, Repr

/-- Embeds `FamilyHandle::new` (`src/family_handle.rs` lines 28-32): the
empty set of family handles. -/
def FamilyHandle.new : FamilyHandle :=
  { fonts := [] }

/-- Embeds `FamilyHandle::from_font_handles` (`src/family_handle.rs` lines
36-40): collects the input iterator into the `fonts` vector. The Rust
iterator is embedded as the list of handles it yields, in order. -/
def FamilyHandle.from_font_handles (fonts : List Handle) : FamilyHandle :=
  { fonts := fonts }

/-- Embeds `FamilyHandle::push` (`src/family_handle.rs` lines 44-46):
`self.fonts.push(font)` appends at the end. -/
def FamilyHandle.push (fh : FamilyHandle) (font : Handle) : FamilyHandle :=
  { fonts := fh.fonts ++ [font] }

/-- Embeds `FamilyHandle::is_empty` (`src/family_handle.rs` lines 50-52). -/
def FamilyHandle.is_empty (fh : FamilyHandle) : Bool :=
  fh.fonts.isEmpty

/-- Embeds the accessor `FamilyHandle::fonts` (`src/family_handle.rs` lines
56-58): returns the stored sequence. -/
def FamilyHandle.fontsOf (fh : FamilyHandle) : List Handle :=
  fh.fonts

end FontKit

namespace FontKit

/-- C1: `Font::from_bytes` never returns a live `Font`: for every byte
buffer and index (in particular for non-empty well-formed font data at a
valid face index, such as the repository's own PCF test fixture), it returns
`Err(FontLoadingError::NotImplemented)` — an error that is neither the
malformed-data nor the out-of-range kind. This contradicts the claim that
valid input yields a live `Font` and that failure occurs only for malformed
data or an out-of-range index. -/
theorem c1_from_bytes_always_not_implemented (d : List Nat) (i : Nat) :
    Font.from_bytes d i = Except.error FontLoadingError.notImplemented ∧
    FontLoadingError.notImplemented ≠ FontLoadingError.unknownFormat :=
  ⟨rfl, by decide⟩

/-- C2 counterexample: for the concrete `Font` built by
`from_native_font(None)` and `glyph_id = 0`, we have
`glyph_id ≥ glyph_count()` (the stub's glyph count is `0`), yet
`advance(0)` succeeds with `Ok(Vector2F::default())` instead of failing
with the glyph-range error — refuting the claim as stated. -/
theorem c2_advance_out_of_range_counterexample :
    Font.glyph_count (Font.from_native_font none) ≤ 0 ∧
    Font.advance (Font.from_native_font none) 0 =
      Except.ok Vector2F.default :=
  ⟨Nat.le.refl, rfl⟩

/-- C2 (amended): on this stub backend, `glyph_count()` is always `0` and
`advance(glyph_id)` always succeeds, returning the zero advance vector for
every glyph id; it never fails with the glyph-range error. -/
theorem c2_advance_total (f : Font) (glyph_id : Nat) :
    Font.advance f glyph_id = Except.ok Vector2F.default ∧
    Font.glyph_count f = 0 :=
  ⟨rfl, rfl⟩

/-- C3 counterexample: for the concrete `Font` built by
`from_native_font(None)`, `full_name()` (and likewise `family_name()`)
returns the placeholder string `"not implemented"`, which is not the empty
string — refuting the claim that absent names degrade to the empty
string. -/
theorem c3_full_name_not_empty_counterexample :
    Font.full_name (Font.from_native_font none) = "not implemented" ∧
    Font.full_name (Font.from_native_font none) ≠ "" :=
  ⟨rfl, by decide⟩

/-- C3 (amended): the descriptive queries are total functions that never
raise an error; `is_monospace` degrades to `false` and `metrics` to the
zeroed `Metrics`, but `full_name` and `family_name` degrade to the
placeholder string `"not implemented"`, not to the empty string. -/
theorem c3_metadata_defaults (f : Font) :
    Font.full_name f = "not implemented" ∧
    Font.family_name f = "not implemented" ∧
    Font.is_monospace f = false ∧
    Font.metrics f = Metrics.default :=
  ⟨rfl, rfl, rfl, rfl⟩

/-- C4 counterexample: for the concrete `Font` built by
`from_native_font(None)` — a native handle with no retained bytes —
`copy_font_data()` returns `Some` of the empty buffer, not `None`,
refuting the claim as stated. -/
theorem c4_copy_font_data_counterexample :
    Font.copy_font_data (Font.from_native_font none) = some [] ∧
    Font.copy_font_data (Font.from_native_font none) ≠ none :=
  ⟨rfl, by decide⟩

/-- C4 (amended): `copy_font_data()` always returns `Some` of the `Font`'s
retained shared byte buffer (`font_data`); a `Font` created via
`from_native_font` retains an empty buffer, so for it the result is
`Some(empty buffer)` rather than `None`. -/
theorem c4_copy_font_data_is_font_data (f : Font) (nf : Option String) :
    Font.copy_font_data f = some f.font_data ∧
    Font.copy_font_data (Font.from_native_font nf) = some [] :=
  ⟨rfl, rfl⟩

/-- C5: for every `Font`, text and locale, `get_fallbacks` returns an empty
fallback-font list and reports the whole input text as valid:
`valid_len = text.len()`. -/
theorem c5_get_fallbacks_empty_full_valid (f : Font)
    (text locale : List Nat) :
    (Font.get_fallbacks f text locale).fonts = [] ∧
    (Font.get_fallbacks f text locale).valid_len = text.length :=
  ⟨rfl, rfl⟩

/-- C6: loading the PCF fixture `timR12.pcf` at index 0 does not succeed:
`Font::from_path` returns `Err(FontLoadingError::NotImplemented)`, so the
repository's own test `get_pcf_postscript_name` panics at `unwrap()`; and
even on a constructed `Font`, `postscript_name()` returns
`Some("not implemented")`, not `Some("Times-Roman")`. -/
theorem c6_pcf_fixture_load_fails :
    Font.from_path "resources/tests/times-roman-pcf/timR12.pcf" 0 =
      Except.error FontLoadingError.notImplemented ∧
    Font.postscript_name (Font.from_native_font none) =
      some "not implemented" :=
  ⟨rfl, rfl⟩

/-- C7 counterexample: on the concrete non-font input `[]` (an empty byte
buffer is not a recognized font), `analyze_bytes` returns the
`NotImplemented` error, which is distinct from the "unrecognized format"
error kind — refuting the claim as stated. -/
theorem c7_analyze_bytes_counterexample :
    Font.analyze_bytes [] = Except.error FontLoadingError.notImplemented ∧
    FontLoadingError.notImplemented ≠ FontLoadingError.unknownFormat :=
  ⟨rfl, by decide⟩

/-- C7 (amended): `analyze_bytes` returns the `NotImplemented`
`FontLoadingError` on every input (font or not), never the
"unrecognized format" error; it is a pure function of its argument, so it
neither raises from nor changes the outcome of any other structural
operation (witnessed here by `advance` and `glyph_count` keeping their
values on every `Font`). -/
theorem c7_analyze_bytes_not_implemented (d : List Nat) (f : Font)
    (glyph_id : Nat) :
    Font.analyze_bytes d = Except.error FontLoadingError.notImplemented ∧
    Font.advance f glyph_id = Except.ok Vector2F.default ∧
    Font.glyph_count f = 0 :=
  ⟨rfl, rfl, rfl⟩

/-- C8: a `FamilyHandle` preserves insertion order: `from_font_handles`
stores exactly the input sequence in order, `push` appends one handle at the
end leaving the previously stored prefix unchanged in place (so no operation
removes entries), `is_empty` reflects the stored sequence, and the `fonts`
accessor returns exactly the stored sequence. -/
theorem c8_family_handle_order (l : List Handle) (fh : FamilyHandle)
    (h : Handle) :
    (FamilyHandle.from_font_handles l).fonts = l ∧
    (FamilyHandle.push fh h).fonts = fh.fonts ++ [h] ∧
    fh.fonts.length ≤ (FamilyHandle.push fh h).fonts.length ∧
    FamilyHandle.is_empty fh = fh.fonts.isEmpty ∧
    FamilyHandle.fontsOf fh = fh.fonts ∧
    FamilyHandle.new.fonts = [] :=
  ⟨rfl, rfl, by simp [FamilyHandle.push], rfl, rfl, rfl⟩

/-- C9: `glyph_count()` is deterministic and stable: it is a pure function
of the `Font` value, equal to `0` for every `Font`, so any two calls — on
the same `Font` or across any sequence of the immutable query operations,
which cannot alter the `Font` — return the same value, and the value never
decreases. -/
theorem c9_glyph_count_stable (f g : Font) :
    Font.glyph_count f = 0 ∧
    Font.glyph_count f = Font.glyph_count g ∧
    Font.glyph_count f ≤ Font.glyph_count g :=
  ⟨rfl, rfl, Nat.le.refl⟩

/-- C10: for every `Font`, canvas and rasterization arguments,
`rasterize_glyph` returns `Ok(())` and leaves the canvas — in particular
every one of its pixels — unchanged. -/
theorem c10_rasterize_glyph_frame (f : Font) (c : Canvas) (glyph_id : Nat)
    (point_size : Float) (t : Transform2F) (h : HintingOptions)
    (r : RasterizationOptions) :
    (Font.rasterize_glyph f c glyph_id point_size t h r).1 =
      Except.ok () ∧
    (Font.rasterize_glyph f c glyph_id point_size t h r).2 = c ∧
    (Font.rasterize_glyph f c glyph_id point_size t h r).2.pixels =
      c.pixels :=
  ⟨rfl, rfl, rfl⟩

end FontKit
